import Mathlib

/-!
# Invoice parser and validator: shallow embedding

This file embeds, in Lean 4, the core of the `invoice-parser` repository:

* `src/pymupdf_client/pdf_client.py` — `_extract_resource_and_bill_details`,
  the layout-ambiguous line-item table parser (token classification by the
  regexes `float_re`, `int6_re`, `int10_re`, `invcode_re`, the record split
  on standalone 1–3 digit serial lines, and the forward-only first-match-wins
  scan);
* `src/gemini_client/validator.py` — `ValidationConstants.GSTIN_PATTERN`,
  `InvoiceValidator.validate_letter_head` and
  `InvoiceValidator.validate_resource_and_bill_details` (per-key message
  ladders, the CGST/SGST/IGST regime reconciliation, the line-total and
  invoice-total arithmetic checks and the amount-in-words check);
* `src/helper.py` — `number_to_words_inr` and `is_value_present`.

Python strings are `String`, Python floats are `ℚ` with explicit half-even
rounding, fallible operations (`float(...)` on an unparseable string, use of
an unbound local) are `Except`/`Option`.
-/

namespace InvoiceParser

/-! ## Python string primitives

Implemented over `List Char` so that every definition evaluates by kernel
reduction (Lean's own `String.trim`/`String.split` are iterator-based and
do not). -/

/-- Drop leading and trailing whitespace from a character list
(Python `str.strip()`; ASCII whitespace suffices for the inputs here). -/
def trimChars (l : List Char) : List Char :=
  ((l.dropWhile Char.isWhitespace).reverse.dropWhile Char.isWhitespace).reverse

/-- Python `str.strip()`. -/
def pyStrip (s : String) : String := ⟨trimChars s.data⟩

/-- Split a character list at every character satisfying `p`, keeping empty
pieces (like Lean's `String.split` / the pieces of a Python split). -/
def splitCharsAux (p : Char → Bool) (acc : List Char) : List Char → List (List Char)
  | [] => [acc.reverse]
  | c :: cs =>
    if p c then acc.reverse :: splitCharsAux p [] cs
    else splitCharsAux p (c :: acc) cs

/-- Python `str.split()` with no separator: split on whitespace runs,
dropping empty pieces. -/
def pySplitWs (s : String) : List String :=
  ((splitCharsAux Char.isWhitespace [] s.data).map fun l => (⟨l⟩ : String)).filter (· ≠ "")

/-- Python `str.splitlines()` restricted to `\n` separators, as produced by
`"\n".join(...)` in `_extract_text`. -/
def pyLines (s : String) : List String :=
  (splitCharsAux (· == '\n') [] s.data).map fun l => (⟨l⟩ : String)

/-! ## Token shape classifiers of `_extract_resource_and_bill_details`

Each mirrors one compiled regex used with `.fullmatch`. -/

/-- `float_re = ^\d[\d,]*\.\d{2}$` : one digit, then digits or commas,
a dot, exactly two digits. -/
def isMoneyToken (s : String) : Bool :=
  match s.data with
  | c :: rest =>
    c.isDigit &&
    (match rest.reverse with
     | d2 :: d1 :: '.' :: mid =>
        d1.isDigit && d2.isDigit && mid.all (fun x => x.isDigit || x == ',')
     | _ => false)
  | [] => false

/-- `int6_re = ^\d{6}$`. -/
def isHsn6 (s : String) : Bool :=
  s.data.length == 6 && s.data.all Char.isDigit

/-- `int10_re = ^\d{10}$`. -/
def isPo10 (s : String) : Bool :=
  s.data.length == 10 && s.data.all Char.isDigit

/-- `invcode_re = ^[A-Z]{3,}[A-Z0-9]+$` : its language is exactly the
strings of length ≥ 4 whose first three characters are uppercase letters
and whose remaining characters are uppercase letters or digits. -/
def isInvCode (s : String) : Bool :=
  match s.data with
  | a :: b :: c :: rest =>
    a.isUpper && b.isUpper && c.isUpper && !rest.isEmpty &&
      rest.all (fun x => x.isUpper || x.isDigit)
  | _ => false

/-- `re.fullmatch(r"\d{1,3}", line)` — the serial-number line shape. -/
def isSerialLine (s : String) : Bool :=
  decide (1 ≤ s.data.length) && decide (s.data.length ≤ 3) && s.data.all Char.isDigit

/-- `re.fullmatch(r"[A-Z][A-Z\s]+", line)` — the resource-name line shape. -/
def isNameLine (s : String) : Bool :=
  match s.data with
  | c :: rest =>
    c.isUpper && !rest.isEmpty && rest.all (fun x => x.isUpper || x.isWhitespace)
  | [] => false

/-! ## The line-item record -/

/-- One parsed table row, as built by `_extract_resource_and_bill_details`.
A field that was never matched stays the empty string. -/
structure LineItem where
  sl_no : String
  resource_name : String
  hsn_sac : String
  po_no : String
  bill_rate : String
  ericsson_invoice_code : String
  taxable_value : String
  cgst : String
  sgst : String
  igst : String
  total_inr : String
deriving DecidableEq, Repr

/-- Mutable scan state of the `while i < len(lines)` loop: the four target
fields captured so far plus the trailing standalone decimals. -/
structure ScanState where
  po_no : String
  bill_rate : String
  inv_code : String
  taxable : String
  trailing : List String
deriving DecidableEq, Repr

/-- One iteration of the scan loop: the if/elif ladder over a single line,
in source order (first match wins, a matched field is never overwritten). -/
def scanLine (st : ScanState) (line : String) : ScanState :=
  let parts := pySplitWs line
  let poRatePair :=
    match parts with
    | [a, b] => isPo10 a && isMoneyToken b
    | _ => false
  let codeTaxPair :=
    match parts with
    | [a, b] => isInvCode a && isMoneyToken b
    | _ => false
  if poRatePair && st.po_no == "" then
    { st with po_no := parts.headD "", bill_rate := (parts.drop 1).headD "" }
  else if isPo10 line && st.po_no == "" then
    { st with po_no := line }
  else if isMoneyToken line && st.po_no != "" && st.bill_rate == "" && st.inv_code == "" then
    { st with bill_rate := line }
  else if codeTaxPair && st.inv_code == "" then
    { st with inv_code := parts.headD "", taxable := (parts.drop 1).headD "" }
  else if isInvCode line && st.inv_code == "" then
    { st with inv_code := line }
  else if isMoneyToken line && st.inv_code != "" then
    if st.taxable == "" then { st with taxable := line }
    else { st with trailing := st.trailing ++ [line] }
  else st

/-- Parse one record chunk (the body of the `for record in record_splits`
loop): strip and drop blank lines, require at least two lines and a 1–3
digit first line, assign serial / name / HSN-SAC positionally, then scan
the rest. `none` models Python's `continue`. -/
def parseChunk (chunkLines : List String) : Option LineItem :=
  let lines := (chunkLines.map pyStrip).filter (· ≠ "")
  match lines with
  | l0 :: l1 :: rest =>
    if !isSerialLine l0 then none
    else
      let resource_name := if isNameLine l1 then l1 else ""
      let hsn_sac :=
        match rest with
        | h :: _ => if isHsn6 h then h else ""
        | [] => ""
      let st := (rest.drop 1).foldl scanLine ⟨"", "", "", "", []⟩
      some
        { sl_no := l0
          resource_name := resource_name
          hsn_sac := hsn_sac
          po_no := st.po_no
          bill_rate := st.bill_rate
          ericsson_invoice_code := st.inv_code
          taxable_value := st.taxable
          cgst := st.trailing.getD 0 ""
          sgst := st.trailing.getD 1 ""
          igst := st.trailing.getD 2 ""
          total_inr := st.trailing.getD 3 "" }
  | _ => none

/-- `re.split(r"(?=^\d{1,3}\n)", block, flags=re.MULTILINE)` : start a new
chunk before every line that is exactly 1–3 digits and is followed by a
newline (hence never before the final line). -/
def groupRecords (acc : List String) : List String → List (List String)
  | [] => [acc.reverse]
  | l :: rest =>
    if isSerialLine l && !rest.isEmpty then
      acc.reverse :: groupRecords [l] rest
    else groupRecords (l :: acc) rest

/-- `_extract_resource_and_bill_details`, from the isolated table block
onward: `block.strip()`, split into record chunks, parse each chunk. -/
def extract_resource_and_bill_details (block : String) : List LineItem :=
  (groupRecords [] (pyLines (pyStrip block))).filterMap parseChunk

/-- The Layout-A table block of the spec's test vector. -/
def layoutABlock : String :=
  "1\nSHAILENDRA KUSHWAH\n998513\n8000112642 51980.00\nERCSIN01233612\n51980.00\n0.00\n0.00\n9356.40\n61336.40"

/-- The Layout-B table block of the spec's test vector. -/
def layoutBBlock : String :=
  "1\nPRASHANT KUMAR\n998513\n8000111210\n52189.00\nERCSMI00239725 1739.63\n0.00\n0.00\n313.13\n2052.76"

/-- C1: on the Layout-A block the parser yields exactly one line item, with
`po_no="8000112642"`, `bill_rate="51980.00"`,
`ericsson_invoice_code="ERCSIN01233612"`, `taxable_value="51980.00"`,
`igst="9356.40"` and `total_inr="61336.40"` (the PO+rate line fills both
fields at once; the standalone invoice code and the following decimals fill
the rest in order). -/
theorem layoutA_parse :
    extract_resource_and_bill_details layoutABlock =
      [{ sl_no := "1", resource_name := "SHAILENDRA KUSHWAH", hsn_sac := "998513",
         po_no := "8000112642", bill_rate := "51980.00",
         ericsson_invoice_code := "ERCSIN01233612", taxable_value := "51980.00",
         cgst := "0.00", sgst := "0.00", igst := "9356.40", total_inr := "61336.40" }] := by
  decide

/-- C2: on the Layout-B block the parser yields exactly one line item, with
`po_no="8000111210"`, `bill_rate="52189.00"`,
`ericsson_invoice_code="ERCSMI00239725"` and `taxable_value="1739.63"`: the
standalone decimal after the PO and before any invoice code becomes the
bill rate, and the combined code+decimal line fills invoice code and
taxable value. -/
theorem layoutB_parse :
    extract_resource_and_bill_details layoutBBlock =
      [{ sl_no := "1", resource_name := "PRASHANT KUMAR", hsn_sac := "998513",
         po_no := "8000111210", bill_rate := "52189.00",
         ericsson_invoice_code := "ERCSMI00239725", taxable_value := "1739.63",
         cgst := "0.00", sgst := "0.00", igst := "313.13", total_inr := "2052.76" }] := by
  decide

/-! ## Python numeric primitives

The numeric values the validator handles are decimal amounts ("51980.00",
"9356.40"), turned into Python floats by `float(...)` and combined with
`+`, `*`, `round(..., 2)` and comparisons. They are modelled as exact
decimals: `Dec` holds a mantissa `m : ℤ` and an exponent `e : ℕ` denoting
the value `m / 10^e`, with exact arithmetic and half-even rounding — the
sub-ulp representation error of binary floating point is not modelled.
Every operation is integer-based so that it evaluates by kernel
reduction. -/

/-- `10 ^ e` as an integer. -/
def p10 (e : ℕ) : ℤ := ((10 ^ e : ℕ) : ℤ)

/-- An exact decimal value `m / 10^e` (the model of a Python float holding
a parsed invoice amount). The representation is not normalised; all
comparisons are value-level. -/
structure Dec where
  m : ℤ
  e : ℕ
deriving Repr

/-- The float `0.00`. -/
def Dec.zero : Dec := ⟨0, 0⟩

/-- Value-level equality (Python `==` on floats). -/
def Dec.beq (a b : Dec) : Bool := a.m * p10 b.e == b.m * p10 a.e

/-- Python `+` on floats. -/
def Dec.add (a b : Dec) : Dec := ⟨a.m * p10 b.e + b.m * p10 a.e, a.e + b.e⟩

/-- Python `*` on floats. -/
def Dec.mul (a b : Dec) : Dec := ⟨a.m * b.m, a.e + b.e⟩

/-- Round `p / q` (with `q > 0`) to the nearest integer, ties to even
(CPython `round`). -/
def roundHalfEvenRatio (p q : ℤ) : ℤ :=
  let f := Int.fdiv p q
  let r := p - f * q
  if 2 * r < q then f
  else if 2 * r > q then f + 1
  else if f % 2 == 0 then f else f + 1

/-- Python `round(x, 2)`. -/
def Dec.round2 (a : Dec) : Dec := ⟨roundHalfEvenRatio (a.m * 100) (p10 a.e), 2⟩

/-- Python `int(x)`: truncate toward zero. -/
def Dec.trunc (a : Dec) : ℤ := Int.tdiv a.m (p10 a.e)

/-- Value of a digit string. -/
def digitsToNat (l : List Char) : Nat :=
  l.foldl (fun n c => 10 * n + (c.toNat - '0'.toNat)) 0

/-- Parse the unsigned part of a Python float literal: digits with an
optional fractional part, at least one digit in total. (Exponents,
underscores and `inf`/`nan`, which Python also accepts, never occur in
invoice amounts and are not modelled.) -/
def pyFloatCore (l : List Char) : Option Dec :=
  let intPart := l.takeWhile Char.isDigit
  let rest := l.dropWhile Char.isDigit
  match rest with
  | [] => if intPart.isEmpty then none else some ⟨digitsToNat intPart, 0⟩
  | '.' :: frac =>
    if frac.all Char.isDigit && !(intPart.isEmpty && frac.isEmpty) then
      some ⟨digitsToNat intPart * p10 frac.length + digitsToNat frac, frac.length⟩
    else none
  | _ => none

/-- Python `float(s)`: strip whitespace, optional sign, decimal literal.
`none` models the raised `ValueError` (e.g. on `"1,234.00"` or `" "`). -/
def pyFloat? (s : String) : Option Dec :=
  match trimChars s.data with
  | [] => none
  | '+' :: rest => pyFloatCore rest
  | '-' :: rest => (pyFloatCore rest).map fun d => ⟨-d.m, d.e⟩
  | l => pyFloatCore l

/-! ## `helper.is_value_present` -/

/-- The closed set of Python runtime values the duck-typed presence check
can meet: `None`, strings, lists, dicts, ints, floats and bools. -/
inductive PyValue where
  | none
  | str (s : String)
  | list (elems : List PyValue)
  | dict (entries : List (String × PyValue))
  | int (n : ℤ)
  | float (d : Dec)
  | bool (b : Bool)

/-- `helper.is_value_present`: `None` is absent, a string is absent when
its stripped form is empty, a list or dict is absent when empty, and every
other value is present. -/
def is_value_present : PyValue → Bool
  | .none => false
  | .str s => if (⟨trimChars s.data⟩ : String) == "" then false else true
  | .list l => if l.length == 0 then false else true
  | .dict d => if d.length == 0 then false else true
  | .int _ => true
  | .float _ => true
  | .bool _ => true

/-- C10: `is_value_present` returns `False` exactly on `None`, strings that
strip to empty, and empty lists and dicts; every other value — including
the integer `0`, the float `0.0` and the boolean `False` — yields `True`. -/
theorem is_value_present_spec :
    (∀ v : PyValue, is_value_present v = false ↔
      (v = PyValue.none ∨
       (∃ s, v = PyValue.str s ∧ pyStrip s = "") ∨
       v = PyValue.list [] ∨ v = PyValue.dict [])) ∧
    is_value_present (PyValue.int 0) = true ∧
    is_value_present (PyValue.float Dec.zero) = true ∧
    is_value_present (PyValue.bool false) = true := by
  refine ⟨fun v => ?_, rfl, rfl, rfl⟩
  cases v with
  | none => simp [is_value_present]
  | str s =>
    simp only [is_value_present]
    constructor
    · intro h
      refine Or.inr (Or.inl ⟨s, rfl, ?_⟩)
      by_cases hs : (⟨trimChars s.data⟩ : String) = ""
      · simpa [pyStrip] using hs
      · simp [hs] at h
    · rintro (h | ⟨t, ht, hts⟩ | h | h)
      · exact absurd h (by simp)
      · obtain rfl : s = t := by injection ht
        simp [pyStrip] at hts
        simp [hts]
      · exact absurd h (by simp)
      · exact absurd h (by simp)
  | list l => cases l <;> simp [is_value_present]
  | dict d => cases d <;> simp [is_value_present]
  | int n => simp [is_value_present]
  | float q => simp [is_value_present]
  | bool b => simp [is_value_present]

/-! ## The GSTIN format check -/

/-- Match a list of character classes against a character list, one class
per character, consuming the whole list. -/
def matchClasses (cls : List (Char → Bool)) (l : List Char) : Bool :=
  match cls, l with
  | [], [] => true
  | p :: ps, c :: cs => p c && matchClasses ps cs
  | _, _ => false

/-- The character classes of
`GSTIN_PATTERN = ^[0-9]{2}[A-Z]{5}[0-9]{4}[A-Z]{1}[1-9A-Z]{1}Z[0-9A-Z]{1}$`. -/
def gstinClasses : List (Char → Bool) :=
  [Char.isDigit, Char.isDigit,
   Char.isUpper, Char.isUpper, Char.isUpper, Char.isUpper, Char.isUpper,
   Char.isDigit, Char.isDigit, Char.isDigit, Char.isDigit,
   Char.isUpper,
   (fun c => (decide ('1' ≤ c) && decide (c ≤ '9')) || c.isUpper),
   (fun c => c == 'Z'),
   (fun c => c.isDigit || c.isUpper)]

/-- The anchored body of `GSTIN_PATTERN`. -/
def gstinCore (s : String) : Bool := matchClasses gstinClasses s.data

/-- `re.match(ValidationConstants.GSTIN_PATTERN, s)` as a boolean: the
pattern is anchored with `^...$`, and `$` also matches just before a
single trailing newline. -/
def gstinMatch (s : String) : Bool :=
  gstinCore s ||
    (match s.data.reverse with
     | '\n' :: rest => matchClasses gstinClasses rest.reverse
     | _ => false)

/-- The shape claimed by the spec, word for word: 2 digits, 5 letters,
4 digits, 1 letter, 1 alphanumeric character, the literal letter `Z`,
1 alphanumeric character. (Used only to compare the spec against the
source pattern.) -/
def gstinClaimShape (s : String) : Bool :=
  matchClasses
    [Char.isDigit, Char.isDigit,
     Char.isAlpha, Char.isAlpha, Char.isAlpha, Char.isAlpha, Char.isAlpha,
     Char.isDigit, Char.isDigit, Char.isDigit, Char.isDigit,
     Char.isAlpha, Char.isAlphanum, (· == 'Z'), Char.isAlphanum] s.data

/-- The amended shape: the 13th character must be a digit `1`–`9` or an
uppercase letter (`0` is excluded), and all letter positions are
uppercase-only. -/
def gstinAmendedShape (s : String) : Bool :=
  match s.data with
  | [a, b, c, d, e, f, g, h, i, j, k, l, m, n, o] =>
    a.isDigit && b.isDigit &&
    c.isUpper && d.isUpper && e.isUpper && f.isUpper && g.isUpper &&
    h.isDigit && i.isDigit && j.isDigit && k.isDigit &&
    l.isUpper &&
    ((decide ('1' ≤ m) && decide (m ≤ '9')) || m.isUpper) &&
    n == 'Z' &&
    (o.isDigit || o.isUpper)
  | _ => false

/-- C7 counterexample: `"29ABCDE1234F0Z5"` has the claimed shape (its 13th
character `0` is alphanumeric) yet the code's GSTIN check rejects it,
because `GSTIN_PATTERN` restricts that position to `[1-9A-Z]`. -/
theorem gstin_claim_counterexample :
    gstinClaimShape "29ABCDE1234F0Z5" = true ∧
    gstinMatch "29ABCDE1234F0Z5" = false := by
  constructor <;> decide

/-- The regex body accepts a character list iff it has the amended
15-character shape. -/
lemma gstinCore_iff_amended (l : List Char) :
    matchClasses gstinClasses l = gstinAmendedShape ⟨l⟩ := by
  rcases l with _ | ⟨a, l⟩; · rfl
  rcases l with _ | ⟨b, l⟩; · simp [matchClasses, gstinClasses, gstinAmendedShape]
  rcases l with _ | ⟨c, l⟩; · simp [matchClasses, gstinClasses, gstinAmendedShape]
  rcases l with _ | ⟨d, l⟩; · simp [matchClasses, gstinClasses, gstinAmendedShape]
  rcases l with _ | ⟨e, l⟩; · simp [matchClasses, gstinClasses, gstinAmendedShape]
  rcases l with _ | ⟨f, l⟩; · simp [matchClasses, gstinClasses, gstinAmendedShape]
  rcases l with _ | ⟨g, l⟩; · simp [matchClasses, gstinClasses, gstinAmendedShape]
  rcases l with _ | ⟨h, l⟩; · simp [matchClasses, gstinClasses, gstinAmendedShape]
  rcases l with _ | ⟨i, l⟩; · simp [matchClasses, gstinClasses, gstinAmendedShape]
  rcases l with _ | ⟨j, l⟩; · simp [matchClasses, gstinClasses, gstinAmendedShape]
  rcases l with _ | ⟨k, l⟩; · simp [matchClasses, gstinClasses, gstinAmendedShape]
  rcases l with _ | ⟨m, l⟩; · simp [matchClasses, gstinClasses, gstinAmendedShape]
  rcases l with _ | ⟨n, l⟩; · simp [matchClasses, gstinClasses, gstinAmendedShape]
  rcases l with _ | ⟨o, l⟩; · simp [matchClasses, gstinClasses, gstinAmendedShape]
  rcases l with _ | ⟨p, l⟩; · simp [matchClasses, gstinClasses, gstinAmendedShape]
  rcases l with _ | ⟨q, l⟩ <;>
    simp [matchClasses, gstinClasses, gstinAmendedShape, Bool.and_assoc]

/-- C7 amended: the GSTIN format check accepts exactly the 15-character
strings of shape 2 digits, 5 uppercase letters, 4 digits, 1 uppercase
letter, 1 character that is a digit 1–9 or an uppercase letter, the
literal `Z`, 1 digit or uppercase letter — optionally followed by a single
trailing newline (an artifact of `$` in `re.match`); in particular
`"29ABCDE1234F1Z5"` passes and `"29ABCDE1234F1Y5"` fails. -/
theorem gstin_amended_spec :
    (∀ s : String, gstinMatch s = true ↔
      (gstinAmendedShape s = true ∨
       ∃ t, s = t ++ "\n" ∧ gstinAmendedShape t = true)) ∧
    gstinMatch "29ABCDE1234F1Z5" = true ∧
    gstinMatch "29ABCDE1234F1Y5" = false := by
  refine ⟨fun s => ?_, by decide, by decide⟩
  obtain ⟨l⟩ := s
  constructor
  · intro hm
    rcases Bool.or_eq_true_iff.mp hm with hcore | htail
    · exact Or.inl (by simpa [gstinCore, gstinCore_iff_amended] using hcore)
    · revert htail
      cases hrev : l.reverse with
      | nil => simp [gstinMatch]
      | cons c rest =>
        intro htail
        by_cases hc : c = '\n'
        · subst hc
          refine Or.inr ⟨⟨rest.reverse⟩, ?_, ?_⟩
          · have : l = rest.reverse ++ ['\n'] := by
              have := congrArg List.reverse hrev
              simpa using this
            simp only [this]
            rfl
          · simp only [hrev] at htail
            simpa [gstinCore_iff_amended] using htail
        · simp [hrev, hc] at htail
  · rintro (hsh | ⟨t, hst, hsh⟩)
    · exact Bool.or_eq_true_iff.mpr (Or.inl (by simpa [gstinCore, gstinCore_iff_amended] using hsh))
    · refine Bool.or_eq_true_iff.mpr (Or.inr ?_)
      obtain ⟨lt⟩ := t
      have hdata : l = lt ++ ['\n'] := by
        have := congrArg String.data hst
        simpa using this
      simp only [hdata]
      simpa [List.reverse_append, gstinCore_iff_amended] using hsh

/-! ## `helper.number_to_words_inr`

The word generation delegates to the `num2words` package with
`lang="en_IN"` (Indian numbering: hundred / thousand / lakh / crore, the
British connective "and", hyphenated tens). That algorithm is embedded
below; recursion is by fuel so that every application reduces in the
kernel (the fuel bound `n + 1` always suffices, the recursion depth being
logarithmic). -/

/-- Words for 0–19. -/
def onesWord (n : Nat) : String :=
  match n with
  | 0 => "zero" | 1 => "one" | 2 => "two" | 3 => "three" | 4 => "four"
  | 5 => "five" | 6 => "six" | 7 => "seven" | 8 => "eight" | 9 => "nine"
  | 10 => "ten" | 11 => "eleven" | 12 => "twelve" | 13 => "thirteen"
  | 14 => "fourteen" | 15 => "fifteen" | 16 => "sixteen" | 17 => "seventeen"
  | 18 => "eighteen" | _ => "nineteen"

/-- Words for the tens digit 2–9. -/
def tensWord (n : Nat) : String :=
  match n with
  | 2 => "twenty" | 3 => "thirty" | 4 => "forty" | 5 => "fifty"
  | 6 => "sixty" | 7 => "seventy" | 8 => "eighty" | _ => "ninety"

/-- `num2words(n, lang="en_IN")` for a natural number: group as
crore / lakh / thousand / hundred, join a trailing part below one hundred
with `" and "` and a larger trailing part with `", "`, hyphenate tens. -/
def numToWordsAux : Nat → Nat → String
  | 0, _ => ""
  | fuel + 1, n =>
    if n < 20 then onesWord n
    else if n < 100 then
      tensWord (n / 10) ++ (if n % 10 == 0 then "" else "-" ++ onesWord (n % 10))
    else if n < 1000 then
      let r := n % 100
      numToWordsAux fuel (n / 100) ++ " hundred" ++
        (if r == 0 then "" else " and " ++ numToWordsAux fuel r)
    else if n < 100000 then
      let r := n % 1000
      numToWordsAux fuel (n / 1000) ++ " thousand" ++
        (if r == 0 then "" else if r < 100 then " and " ++ numToWordsAux fuel r
         else ", " ++ numToWordsAux fuel r)
    else if n < 10000000 then
      let r := n % 100000
      numToWordsAux fuel (n / 100000) ++ " lakh" ++
        (if r == 0 then "" else if r < 100 then " and " ++ numToWordsAux fuel r
         else ", " ++ numToWordsAux fuel r)
    else
      let r := n % 10000000
      numToWordsAux fuel (n / 10000000) ++ " crore" ++
        (if r == 0 then "" else if r < 100 then " and " ++ numToWordsAux fuel r
         else ", " ++ numToWordsAux fuel r)

/-- `num2words(z, lang="en_IN")` on an integer. -/
def num2wordsEnIN (z : ℤ) : String :=
  if z < 0 then "minus " ++ numToWordsAux (z.natAbs + 1) z.natAbs
  else numToWordsAux (z.natAbs + 1) z.natAbs

/-- Python `str.title()`: uppercase every cased character that follows a
non-cased one, lowercase the rest (ASCII letters suffice here). -/
def titleChars : Bool → List Char → List Char
  | _, [] => []
  | prevAlpha, c :: cs =>
    if c.isAlpha then
      (if prevAlpha then c.toLower else c.toUpper) :: titleChars true cs
    else c :: titleChars false cs

/-- Python `str.title()`. -/
def pyTitle (s : String) : String := ⟨titleChars false s.data⟩

/-- Replace every non-overlapping occurrence of `pat` (left to right,
continuing after each replacement) by `repl`. Fuel-based so it reduces in
the kernel; `l.length` fuel always suffices. -/
def replaceCharsAux (pat repl : List Char) : Nat → List Char → List Char
  | _, [] => []
  | 0, l => l
  | fuel + 1, c :: cs =>
    if !pat.isEmpty && List.isPrefixOf pat (c :: cs) then
      repl ++ replaceCharsAux pat repl fuel (cs.drop (pat.length - 1))
    else c :: replaceCharsAux pat repl fuel cs

/-- Python `s.replace(pat, repl)` (for the non-empty patterns used in
`number_to_words_inr`). -/
def pyReplace (s pat repl : String) : String :=
  ⟨replaceCharsAux pat.data repl.data s.data.length s.data⟩

/-- `rupees = int(amount)` of `number_to_words_inr`. -/
def rupeesOf (amount : Dec) : ℤ := amount.trunc

/-- `paise = int(round((amount - rupees) * 100))` of `number_to_words_inr`:
`amount - rupees` is `(m - rupees·10^e) / 10^e`, times 100, rounded
half-even. -/
def paiseOf (amount : Dec) : ℤ :=
  roundHalfEvenRatio ((amount.m - rupeesOf amount * p10 amount.e) * 100) (p10 amount.e)

/-- The two-stage cleanup applied to the rupee words:
`num2words(...).replace("-", " ").title()` followed by
`.replace("-", "").replace(",", "").replace(" and ", " ").replace(" And ", " ").title()`. -/
def rupeeWordsClean (z : ℤ) : String :=
  let w := pyTitle (pyReplace (num2wordsEnIN z) "-" " ")
  pyTitle (pyReplace (pyReplace (pyReplace (pyReplace w "-" "") "," "") " and " " ") " And " " ")

/-- The paise words: `num2words(paise, lang="en_IN").replace("-", " ").title()`. -/
def paiseWordsOf (z : ℤ) : String := pyTitle (pyReplace (num2wordsEnIN z) "-" " ")

/-- `helper.number_to_words_inr`: split into rupees and rounded paise,
convert each part to Indian-English words, and format; the paise-words
term is omitted unless `paise > 0`. -/
def number_to_words_inr (amount : Dec) : String :=
  if paiseOf amount > 0 then
    "Rupees " ++ rupeeWordsClean (rupeesOf amount) ++ " and " ++
      paiseWordsOf (paiseOf amount) ++ " Paisa Only."
  else
    "Rupees " ++ rupeeWordsClean (rupeesOf amount) ++ " and Paisa Only."

/-- C8: every result is formatted `"Rupees {RupeeWords} and {PaiseWords}
Paisa Only."`, with the paise-words term omitted whenever the rounded
paise part is zero; the converter is deterministic; and
`toWords(5000.00) = "Rupees Five Thousand and Paisa Only."`. -/
theorem number_to_words_inr_spec :
    (∀ a : Dec, ∃ rw pw,
      (number_to_words_inr a = "Rupees " ++ rw ++ " and " ++ pw ++ " Paisa Only." ∨
       number_to_words_inr a = "Rupees " ++ rw ++ " and Paisa Only.") ∧
      (paiseOf a = 0 → number_to_words_inr a = "Rupees " ++ rw ++ " and Paisa Only.")) ∧
    (∀ a : Dec, number_to_words_inr a = number_to_words_inr a) ∧
    number_to_words_inr ⟨500000, 2⟩ = "Rupees Five Thousand and Paisa Only." := by
  refine ⟨fun a => ?_, fun a => rfl, by decide⟩
  refine ⟨rupeeWordsClean (rupeesOf a), paiseWordsOf (paiseOf a), ?_, ?_⟩
  · by_cases hp : paiseOf a > 0 <;> simp [number_to_words_inr, hp]
  · intro h0
    have hp : ¬ paiseOf a > 0 := by omega
    simp [number_to_words_inr, hp]

/-- C8 witness: at the concrete amount `5000.00` the rounded paise part is
zero and the paise-words term is omitted. -/
theorem number_to_words_inr_spec_witness :
    paiseOf ⟨500000, 2⟩ = 0 ∧
    ∃ rw, number_to_words_inr ⟨500000, 2⟩ = "Rupees " ++ rw ++ " and Paisa Only." := by
  have h0 : paiseOf (⟨500000, 2⟩ : Dec) = 0 := by decide
  obtain ⟨rw, pw, _, himp⟩ := number_to_words_inr_spec.1 ⟨500000, 2⟩
  exact ⟨h0, rw, himp h0⟩

/-! ## `validator.py`: messages and the letter-head validator

A validator method appends strings to `self.errors[section]` or
`self.passes[section]`; a run of one method is modelled as the
chronological list of its appends, tagged by destination. An uncaught
Python exception (`ValueError` from `float`, `NameError` from an unbound
local) is `Except.error ()`; the messages appended before the exception
are not modelled, only the fact that the run does not complete. -/

/-- One message, tagged with the list it is appended to. -/
inductive Msg where
  | err (s : String)
  | pass (s : String)
deriving DecidableEq, Repr

/-- The errors list of a run, in order. -/
def errorsOf (l : List Msg) : List String :=
  l.filterMap fun m => match m with | .err s => some s | .pass _ => none

/-- The passes list of a run, in order. -/
def passesOf (l : List Msg) : List String :=
  l.filterMap fun m => match m with | .pass s => some s | .err _ => none

/-- `is_value_present` applied to a string field, as the validators do. -/
def strPresent (s : String) : Bool := is_value_present (PyValue.str s)

/-- The presence-only key ladder shared by `validate_bill_to_details`,
`validate_invoice_details`, `validate_beneficiary_details` and the six
string keys of a line item: missing key → one error, empty value → one
error, otherwise one pass. -/
def checkPresence (keyMissing valMissing valPresent : String) (v : Option String) : List Msg :=
  match v with
  | none => [.err keyMissing]
  | some s =>
    if strPresent s != true then [.err valMissing]
    else if strPresent s == true then [.pass valPresent]
    else []

/-- One element of the `resource_and_bill` list. -/
structure RBItem where
  sl_no : Option String
  resource_name : Option String
  hsn_sac : Option String
  po_no : Option String
  bill_rate : Option String
  ericsson_invoice_code : Option String
  taxable_value : Option String
  cgst : Option String
  sgst : Option String
  igst : Option String
  total_inr : Option String
deriving DecidableEq, Repr

/-- The `total_invoice_value` argument (only the two keys the method
reads). -/
structure TotalInvoiceValue where
  total_inr : Option String
  in_words : Option String
deriving DecidableEq, Repr

/-- A numeric key ladder (`taxable_value`, `cgst`, `sgst`, `igst`,
`total_inr`): a missing key appends one error and leaves the running
value untouched; a present key appends one "is present" pass, with `''`
read as `0.00` and any other string put through `float` — whose
`ValueError` on an unparseable value aborts the run. -/
def checkNumeric (keyMissing present : String) (v : Option String) (old : Dec) :
    Except Unit (List Msg × Dec) :=
  match v with
  | none => .ok ([.err keyMissing], old)
  | some s =>
    if s == "" then .ok ([.pass present], Dec.zero)
    else
      match pyFloat? s with
      | some d => .ok ([.pass present], d)
      | none => .error ()

/-- The five method-local accumulators `taxable_value`, `cgst`, `sgst`,
`igst`, `total_inr`, initialised to `0.00` and overwritten by every
processed line item. -/
structure NumState where
  taxable_value : Dec
  cgst : Dec
  sgst : Dec
  igst : Dec
  total_inr : Dec
deriving Repr

/-- The body of the `for item in resource_and_bill` loop for one item:
eleven key ladders in source order, threading the numeric accumulators. -/
def processItem (item : RBItem) (ns : NumState) : Except Unit (List Msg × NumState) := do
  let m1 := checkPresence "Serial number key is missing."
    "Serial number value is missing or empty." "Serial number is present." item.sl_no
  let m2 := checkPresence "Resource name key is missing."
    "Resource name value is missing or empty." "Resource name is present." item.resource_name
  let m3 := checkPresence "HSN/SAC key is missing."
    "HSN/SAC value is missing or empty." "HSN/SAC is present." item.hsn_sac
  let m4 := checkPresence "PO number key is missing."
    "PO number value is missing or empty." "PO number is present." item.po_no
  let m5 := checkPresence "Bill rate key is missing."
    "Bill rate value is missing or empty." "Bill rate is present." item.bill_rate
  let m6 := checkPresence "Ericsson invoice code key is missing."
    "Ericsson invoice code value is missing or empty." "Ericsson invoice code is present."
    item.ericsson_invoice_code
  let (m7, tv) ← checkNumeric "Taxable value key is missing." "Taxable value is present."
    item.taxable_value ns.taxable_value
  let (m8, cg) ← checkNumeric "CGST key is missing." "CGST is present." item.cgst ns.cgst
  let (m9, sg) ← checkNumeric "SGST key is missing." "SGST is present." item.sgst ns.sgst
  let (m10, ig) ← checkNumeric "IGST key is missing." "IGST is present." item.igst ns.igst
  let (m11, ti) ← checkNumeric "Line item total INR key is missing." "Total INR is present."
    item.total_inr ns.total_inr
  pure (m1 ++ m2 ++ m3 ++ m4 ++ m5 ++ m6 ++ m7 ++ m8 ++ m9 ++ m10 ++ m11,
    ⟨tv, cg, sg, ig, ti⟩)

/-- The whole item loop. -/
def processItems (items : List RBItem) (ns : NumState) : Except Unit (List Msg × NumState) :=
  match items with
  | [] => .ok ([], ns)
  | it :: rest => do
    let (ms, ns') ← processItem it ns
    let (ms', ns'') ← processItems rest ns'
    pure (ms ++ ms', ns'')

/-- The `total_inr` ladder on `total_invoice_value`: when the key is
missing, the local `total_invoice_value_inr` stays unbound (`none`) — its
later use raises `NameError`. -/
def checkTivInr (v : Option String) : Except Unit (List Msg × Option Dec) :=
  match v with
  | none => .ok ([.err "Invoice-level total INR key is missing."], none)
  | some s =>
    if s == "" then .ok ([.pass "Total invoice value in INR is present."], some Dec.zero)
    else
      match pyFloat? s with
      | some d => .ok ([.pass "Total invoice value in INR is present."], some d)
      | none => .error ()

/-- The `in_words` ladder on `total_invoice_value`; again a missing key
leaves the local words variable unbound. -/
def checkTivWords (v : Option String) : List Msg × Option String :=
  match v with
  | none => ([.err "Invoice total amount in words key is missing."], none)
  | some s =>
    ([.pass "Total invoice value in words is present."], some (if s == "" then "" else s))

/-- `str(x)` for a Python float holding an exact decimal: integer part,
a dot, the fractional digits with trailing zeros removed (at least one
digit). Used only to build the f-string messages below; no theorem
depends on its exact output. -/
def fmtDec (a : Dec) : String :=
  let n := a.m.natAbs
  let base := 10 ^ a.e
  let q := n / base
  let r := n % base
  let digits := Nat.toDigits 10 r
  let padded := List.replicate (a.e - digits.length) '0' ++ digits
  let frac := (padded.reverse.dropWhile (· == '0')).reverse
  (if a.m < 0 then "-" else "") ++ (Nat.toDigits 10 q).asString ++ "." ++
    (if frac.isEmpty then "0" else frac.asString)

/-- The CGST/SGST/IGST regime reconciliation block, operating on the
accumulator values left by the item loop. The percentages `9.0/100.0` and
`18.0/100.0` are the exact decimals `0.09` and `0.18`. Every `elif` keeps
its own condition with an empty fall-through — in particular the ladder
for `igst == 0, cgst != 0, sgst != 0` has no branch for both amounts
differing from their 9% values. -/
def regimeMsgs (taxable cgst sgst igst : Dec) : List Msg :=
  let cgst_amt := Dec.round2 (Dec.mul ⟨9, 2⟩ taxable)
  let sgst_amt := Dec.round2 (Dec.mul ⟨9, 2⟩ taxable)
  let igst_amt := Dec.round2 (Dec.mul ⟨18, 2⟩ taxable)
  if !(Dec.beq igst Dec.zero) then
    if Dec.beq cgst Dec.zero && Dec.beq sgst Dec.zero then
      if Dec.beq igst igst_amt then
        [.pass ("IGST is " ++ fmtDec igst ++
          " and correctly calculated at 18%. CGST and SGST are NIL.")]
      else if !(Dec.beq igst igst_amt) then
        [.err ("IGST is " ++ fmtDec igst ++
          " and incorrectly calculated. CGST and SGST are NIL.")]
      else []
    else if !(Dec.beq cgst Dec.zero) && Dec.beq sgst Dec.zero then
      [.err "IGST and CGST are both being charged."]
    else if Dec.beq cgst Dec.zero && !(Dec.beq sgst Dec.zero) then
      [.err "IGST and SGST are both being charged."]
    else if !(Dec.beq cgst Dec.zero) && !(Dec.beq sgst Dec.zero) then
      [.err "IGST, CGST and SGST are all being charged."]
    else []
  else if Dec.beq igst Dec.zero then
    if !(Dec.beq cgst Dec.zero) && !(Dec.beq sgst Dec.zero) then
      if Dec.beq cgst cgst_amt && Dec.beq sgst sgst_amt then
        [.pass ("CGST is " ++ fmtDec cgst ++ "and SGST is " ++ fmtDec sgst ++
          " and are correctly calculated at 9% each. IGST is NIL.")]
      else if !(Dec.beq cgst cgst_amt) && Dec.beq sgst sgst_amt then
        [.err ("CGST is " ++ fmtDec cgst ++ " and incorrectly calculated. CGST should be " ++
          fmtDec cgst_amt ++ ".")]
      else if Dec.beq cgst cgst_amt && !(Dec.beq sgst sgst_amt) then
        [.err ("SGST is " ++ fmtDec sgst ++ " and incorrectly calculated. SGST should be " ++
          fmtDec sgst_amt ++ ".")]
      else []
    else if Dec.beq cgst Dec.zero && !(Dec.beq sgst Dec.zero) then
      [.err "CGST is NIL. Should be calculated at 9% since IGST is NIL."]
    else if !(Dec.beq cgst Dec.zero) && Dec.beq sgst Dec.zero then
      [.err "SGST is NIL. Should be calculated at 9% since IGST is NIL."]
    else if Dec.beq cgst Dec.zero && Dec.beq sgst Dec.zero then
      [.err "IGST, CGST and SGST are all NIL."]
    else []
  else []

/-- The line-level arithmetic check
`total_inr != taxable_value + cgst + sgst + igst` (left-associated sum, as
in Python). -/
def lineTotalMsgs (ns : NumState) : List Msg :=
  let s := ((ns.taxable_value.add ns.cgst).add ns.sgst).add ns.igst
  if !(Dec.beq ns.total_inr s) then
    [.err "Computed line-item total does not match the sum of taxable value and taxes."]
  else if Dec.beq ns.total_inr s then
    [.pass "Computed line-item total matches the sum of taxable value and taxes."]
  else []

/-- `total_inr != total_invoice_value_inr`: reading the unbound local
raises `NameError`. -/
def lineVsInvoiceMsgs (total : Dec) (tivInr : Option Dec) : Except Unit (List Msg) :=
  match tivInr with
  | none => .error ()
  | some t =>
    .ok (if !(Dec.beq total t) then
          [.err "Line-item total INR does not match invoice-level total INR."]
         else if Dec.beq total t then
          [.pass "Line-item total INR matches invoice-level total INR."]
         else [])

/-- `total_invoice_value_words != number_to_words_inr(total_inr)`: again
the words local may be unbound. -/
def wordsCheckMsgs (total : Dec) (tivWords : Option String) : Except Unit (List Msg) :=
  match tivWords with
  | none => .error ()
  | some w =>
    .ok (if w != number_to_words_inr total then
          [.err "Invoice total amount in words does not match the numeric total INR."]
         else if w == number_to_words_inr total then
          [.pass "Invoice total amount in words matches the numeric total INR."]
         else [])

/-- `InvoiceValidator.validate_resource_and_bill_details`: the empty-list
check, the item loop, the two `total_invoice_value` ladders, then the
regime, line-total, invoice-total and amount-in-words checks, all on the
accumulators left by the loop. All messages target the
`resource_and_bill` section. -/
def validate_resource_and_bill_details (resource_and_bill : List RBItem)
    (total_invoice_value : TotalInvoiceValue) : Except Unit (List Msg) :=
  if resource_and_bill.length == 0 then
    .ok [.err "Resource and bill details list has NO line items."]
  else do
    let (itemMsgs, ns) ← processItems resource_and_bill
      ⟨Dec.zero, Dec.zero, Dec.zero, Dec.zero, Dec.zero⟩
    let (tivInrMsgs, tivInr) ← checkTivInr total_invoice_value.total_inr
    let (tivWordsMsgs, tivWords) := checkTivWords total_invoice_value.in_words
    let lvi ← lineVsInvoiceMsgs ns.total_inr tivInr
    let wrd ← wordsCheckMsgs ns.total_inr tivWords
    pure ([.pass "Resource and bill details list has line items."] ++ itemMsgs ++
      tivInrMsgs ++ tivWordsMsgs ++
      regimeMsgs ns.taxable_value ns.cgst ns.sgst ns.igst ++
      lineTotalMsgs ns ++ lvi ++ wrd)

/-! ## Concrete validator inputs used by the theorems below -/

/-- A line item with IGST zero and both CGST and SGST non-zero but wrong:
taxable `100.00`, CGST `1.00`, SGST `2.00` (9% would be `9.00` each);
the line total is arithmetically consistent so that the regime ladder is
the only check that could complain. -/
def itemBothWrong : RBItem :=
  { sl_no := some "1", resource_name := some "A", hsn_sac := some "998513",
    po_no := some "8000112642", bill_rate := some "100.00",
    ericsson_invoice_code := some "ERCS01",
    taxable_value := some "100.00", cgst := some "1.00", sgst := some "2.00",
    igst := some "0.00", total_inr := some "103.00" }

/-- Matching totals for `itemBothWrong`. -/
def tivBothWrong : TotalInvoiceValue :=
  { total_inr := some "103.00", in_words := some "Rupees One Hundred Three and Paisa Only." }

/-- A line item whose `taxable_value` is the comma-grouped decimal
`"1,234.00"` — a shape `float_re` accepts but Python `float()` rejects. -/
def itemCommaTaxable : RBItem :=
  { sl_no := some "1", resource_name := some "A", hsn_sac := some "998513",
    po_no := some "8000112642", bill_rate := some "100.00",
    ericsson_invoice_code := some "ERCS01",
    taxable_value := some "1,234.00", cgst := some "0.00", sgst := some "0.00",
    igst := some "0.00", total_inr := some "0.00" }

/-- Totals for `itemCommaTaxable` (never reached: the run aborts first). -/
def tivComma : TotalInvoiceValue :=
  { total_inr := some "0.00", in_words := some "x" }

/-- C4: with IGST zero and CGST and SGST both non-zero but both different
from 9% of the taxable base (CGST `1.00`, SGST `2.00`, taxable `100.00`),
the regime ladder appends no message at all — its `if/elif` chain has no
branch for this case — and a full validator run on such a line item
records zero errors, against the claim that at least one error is
recorded. -/
theorem igst_zero_both_wrong_unflagged :
    Dec.beq ⟨100, 2⟩ (Dec.round2 (Dec.mul ⟨9, 2⟩ ⟨10000, 2⟩)) = false ∧
    Dec.beq ⟨200, 2⟩ (Dec.round2 (Dec.mul ⟨9, 2⟩ ⟨10000, 2⟩)) = false ∧
    regimeMsgs ⟨10000, 2⟩ ⟨100, 2⟩ ⟨200, 2⟩ ⟨0, 2⟩ = [] ∧
    (validate_resource_and_bill_details [itemBothWrong] tivBothWrong).map errorsOf =
      Except.ok [] :=
  ⟨by decide, by decide, by decide, rfl⟩

/-- C6: the table parser's own decimal pattern accepts `"1,234.00"`, but
`float("1,234.00")` raises `ValueError`, so a validator run on a line item
carrying that value — all expected keys present — aborts with an
exception instead of returning normally with error messages. -/
theorem comma_decimal_value_error :
    isMoneyToken "1,234.00" = true ∧
    pyFloat? "1,234.00" = none ∧
    validate_resource_and_bill_details [itemCommaTaxable] tivComma = Except.error () :=
  ⟨by decide, rfl, rfl⟩

/-! ## The mixed-regime branch of the reconciler (C5) -/

/-- The message the mixed-regime ladder selects from the non-zero pattern
of CGST and SGST. -/
def mixedRegimeChoice (c s : Dec) : String :=
  if Dec.beq c Dec.zero = false then
    (if Dec.beq s Dec.zero = false then "IGST, CGST and SGST are all being charged."
     else "IGST and CGST are both being charged.")
  else "IGST and SGST are both being charged."

/-- In the mixed regime (IGST non-zero, CGST or SGST non-zero) the ladder
appends exactly one error, selected by `mixedRegimeChoice`. -/
lemma regimeMsgs_mixed (t c s i : Dec) (hi : Dec.beq i Dec.zero = false)
    (hcs : Dec.beq c Dec.zero = false ∨ Dec.beq s Dec.zero = false) :
    regimeMsgs t c s i = [Msg.err (mixedRegimeChoice c s)] := by
  cases hc : Dec.beq c Dec.zero <;> cases hs : Dec.beq s Dec.zero <;>
    simp_all [regimeMsgs, mixedRegimeChoice, hi, hc, hs]

/-- A message reachable as a mixed-regime error: some accumulator values
with IGST non-zero and CGST or SGST non-zero make the regime block emit
it as an error. -/
def MixedRegimeMessage (msg : String) : Prop :=
  ∃ t c s i : Dec, Dec.beq i Dec.zero = false ∧
    (Dec.beq c Dec.zero = false ∨ Dec.beq s Dec.zero = false) ∧
    Msg.err msg ∈ regimeMsgs t c s i

/-- C5 counterexample: there do not exist four distinct mixed-regime error
messages — the ladder only ever emits one of three strings (the claim's
own enumeration CGST+IGST, SGST+IGST, all three), so "choosing among four
distinct messages" is false. -/
theorem mixed_regime_not_four_messages :
    ¬ ∃ m1 m2 m3 m4 : String,
      m1 ≠ m2 ∧ m1 ≠ m3 ∧ m1 ≠ m4 ∧ m2 ≠ m3 ∧ m2 ≠ m4 ∧ m3 ≠ m4 ∧
      MixedRegimeMessage m1 ∧ MixedRegimeMessage m2 ∧
      MixedRegimeMessage m3 ∧ MixedRegimeMessage m4 := by
  have key : ∀ m, MixedRegimeMessage m →
      m = "IGST, CGST and SGST are all being charged." ∨
      m = "IGST and CGST are both being charged." ∨
      m = "IGST and SGST are both being charged." := by
    rintro m ⟨t, c, s, i, hi, hcs, hmem⟩
    rw [regimeMsgs_mixed t c s i hi hcs] at hmem
    simp only [List.mem_singleton, Msg.err.injEq] at hmem
    subst hmem
    unfold mixedRegimeChoice
    split
    · split
      · exact Or.inl rfl
      · exact Or.inr (Or.inl rfl)
    · exact Or.inr (Or.inr rfl)
  rintro ⟨m1, m2, m3, m4, h12, h13, h14, h23, h24, h34, r1, r2, r3, r4⟩
  rcases key m1 r1 with e1 | e1 | e1 <;> rcases key m2 r2 with e2 | e2 | e2 <;>
    rcases key m3 r3 with e3 | e3 | e3 <;> rcases key m4 r4 with e4 | e4 | e4 <;>
    simp_all

/-- C5 amended: whenever IGST is non-zero together with a non-zero CGST or
SGST, the regime block appends exactly one error (and no pass), choosing
among three distinct messages by which of the two is non-zero: both →
"IGST, CGST and SGST are all being charged.", CGST only → "IGST and CGST
are both being charged.", SGST only → "IGST and SGST are both being
charged.". -/
theorem mixed_regime_three_messages :
    ∀ t c s i : Dec, Dec.beq i Dec.zero = false →
      (Dec.beq c Dec.zero = false ∨ Dec.beq s Dec.zero = false) →
      regimeMsgs t c s i = [Msg.err (mixedRegimeChoice c s)] ∧
      passesOf (regimeMsgs t c s i) = [] := by
  intro t c s i hi hcs
  refine ⟨regimeMsgs_mixed t c s i hi hcs, ?_⟩
  rw [regimeMsgs_mixed t c s i hi hcs]
  rfl

/-- C5 witness: at IGST `18.00`, CGST `1.00`, SGST `0.00` the block emits
exactly the CGST+IGST message and no pass. -/
theorem mixed_regime_three_messages_witness :
    regimeMsgs Dec.zero ⟨100, 2⟩ Dec.zero ⟨1800, 2⟩ =
      [Msg.err "IGST and CGST are both being charged."] ∧
    passesOf (regimeMsgs Dec.zero ⟨100, 2⟩ Dec.zero ⟨1800, 2⟩) = [] := by
  have h := mixed_regime_three_messages Dec.zero ⟨100, 2⟩ Dec.zero ⟨1800, 2⟩
    (by decide) (Or.inl (by decide))
  exact ⟨h.1.trans (by decide), h.2⟩

/-! ## Per-key message discipline (C3)

One helper lemma per ladder shape: each ladder appends exactly one
message whatever its input. -/

/-- The numeric value a present, parseable key leaves in its accumulator:
`0.00` for the empty string, else the parsed float. -/
def numVal (v : Option String) : Dec :=
  match v with
  | some s => if s == "" then Dec.zero else (pyFloat? s).getD Dec.zero
  | none => Dec.zero

/-- The accumulator state after processing an item whose five numeric keys
are present and parseable. -/
def numsOfItem (it : RBItem) : NumState :=
  ⟨numVal it.taxable_value, numVal it.cgst, numVal it.sgst, numVal it.igst,
    numVal it.total_inr⟩

/-- A numeric key that is present and parses without a `ValueError`. -/
def numOk (v : Option String) : Bool :=
  match v with
  | some s => s == "" || (pyFloat? s).isSome
  | none => false

/-- All five numeric keys of a line item are present and parseable. -/
def itemNumsOk (it : RBItem) : Bool :=
  numOk it.taxable_value && numOk it.cgst && numOk it.sgst && numOk it.igst &&
    numOk it.total_inr

/-- The messages one such item contributes: its six presence ladders and
the five unconditional numeric passes. -/
def itemMsgsOf (it : RBItem) : List Msg :=
  checkPresence "Serial number key is missing."
      "Serial number value is missing or empty." "Serial number is present." it.sl_no ++
  checkPresence "Resource name key is missing."
      "Resource name value is missing or empty." "Resource name is present." it.resource_name ++
  checkPresence "HSN/SAC key is missing."
      "HSN/SAC value is missing or empty." "HSN/SAC is present." it.hsn_sac ++
  checkPresence "PO number key is missing."
      "PO number value is missing or empty." "PO number is present." it.po_no ++
  checkPresence "Bill rate key is missing."
      "Bill rate value is missing or empty." "Bill rate is present." it.bill_rate ++
  checkPresence "Ericsson invoice code key is missing."
      "Ericsson invoice code value is missing or empty." "Ericsson invoice code is present."
      it.ericsson_invoice_code ++
  [Msg.pass "Taxable value is present.", Msg.pass "CGST is present.",
   Msg.pass "SGST is present.", Msg.pass "IGST is present.",
   Msg.pass "Total INR is present."]

/-- Reduction of a successful bind in the `Except Unit` monad. -/
lemma bind_ok_eq {α β : Type} (a : α) (f : α → Except Unit β) :
    (Except.ok a >>= f : Except Unit β) = f a := rfl

/-- A present, parseable numeric key appends its pass and overwrites the
accumulator with its own value, whatever the previous value was. -/
lemma checkNumeric_ok (kM p : String) (v : Option String) (old : Dec)
    (h : numOk v = true) :
    checkNumeric kM p v old = Except.ok ([Msg.pass p], numVal v) := by
  match v with
  | none => simp [numOk] at h
  | some s =>
    by_cases hs : s = ""
    · subst hs; simp [checkNumeric, numVal]
    · have hbe : (s == "") = false := by simpa using hs
      simp only [numOk, hbe, Bool.false_or] at h
      obtain ⟨d, hd⟩ := Option.isSome_iff_exists.mp h
      simp [checkNumeric, numVal, hbe, hd]

/-- Processing one item with parseable numeric keys: its messages do not
depend on the incoming accumulators, and the outgoing accumulators are
exactly its own values. -/
lemma processItem_wf (it : RBItem) (ns : NumState) (h : itemNumsOk it = true) :
    processItem it ns = Except.ok (itemMsgsOf it, numsOfItem it) := by
  simp only [itemNumsOk, Bool.and_eq_true] at h
  obtain ⟨⟨⟨⟨h7, h8⟩, h9⟩, h10⟩, h11⟩ := h
  simp [processItem, itemMsgsOf, numsOfItem, bind_ok_eq,
    checkNumeric_ok _ _ _ _ h7, checkNumeric_ok _ _ _ _ h8,
    checkNumeric_ok _ _ _ _ h9, checkNumeric_ok _ _ _ _ h10,
    checkNumeric_ok _ _ _ _ h11]

/-- The whole loop over well-formed items: the accumulator state left
behind is that of the last item, and the messages are the concatenation
of the per-item messages. -/
lemma processItems_wf (items : List RBItem) :
    ∀ (ns : NumState) (lastIt : RBItem), (∀ it ∈ items, itemNumsOk it = true) →
      items.getLast? = some lastIt →
      processItems items ns =
        Except.ok ((items.map itemMsgsOf).flatten, numsOfItem lastIt) := by
  induction items with
  | nil => intro ns lastIt _ hlast; simp [List.getLast?] at hlast
  | cons it rest ih =>
    intro ns lastIt h hlast
    have hit := h it (List.mem_cons_self it rest)
    have hrest : ∀ x ∈ rest, itemNumsOk x = true :=
      fun x hx => h x (List.mem_cons_of_mem _ hx)
    cases rest with
    | nil =>
      simp only [List.getLast?_singleton, Option.some.injEq] at hlast
      subst hlast
      simp [processItems, processItem_wf it ns hit, bind_ok_eq]
    | cons b l =>
      rw [List.getLast?_cons_cons] at hlast
      have step : processItems (it :: b :: l) ns =
          (processItem it ns) >>= fun x =>
            (processItems (b :: l) x.2) >>= fun y => pure (x.1 ++ y.1, y.2) := rfl
      rw [step, processItem_wf it ns hit, bind_ok_eq,
        ih (numsOfItem it) lastIt hrest hlast, bind_ok_eq]
      simp only [List.map_cons, List.flatten_cons]
      rfl

/-- C9: with more than one line item (all numeric keys parseable), the
regime check, the line-total arithmetic check, the line-total versus
invoice-total comparison and the amount-in-words comparison are each
evaluated exactly once, on the numeric values of the **last** list
element only — every earlier item's values are overwritten before the
checks run. -/
theorem final_checks_use_last_item_only :
    ∀ (items : List RBItem) (tiv : TotalInvoiceValue) (lastIt : RBItem),
      (∀ it ∈ items, itemNumsOk it = true) →
      items.getLast? = some lastIt →
      validate_resource_and_bill_details items tiv = (do
        let (tivInrMsgs, tivInr) ← checkTivInr tiv.total_inr
        let (tivWordsMsgs, tivWords) := checkTivWords tiv.in_words
        let lvi ← lineVsInvoiceMsgs (numsOfItem lastIt).total_inr tivInr
        let wrd ← wordsCheckMsgs (numsOfItem lastIt).total_inr tivWords
        pure ([Msg.pass "Resource and bill details list has line items."] ++
          (items.map itemMsgsOf).flatten ++ tivInrMsgs ++ tivWordsMsgs ++
          regimeMsgs (numsOfItem lastIt).taxable_value (numsOfItem lastIt).cgst
            (numsOfItem lastIt).sgst (numsOfItem lastIt).igst ++
          lineTotalMsgs (numsOfItem lastIt) ++ lvi ++ wrd)) := by
  intro items tiv lastIt hwf hlast
  have hne : (items.length == 0) = false := by
    cases items with
    | nil => simp [List.getLast?] at hlast
    | cons a l => rfl
  unfold validate_resource_and_bill_details
  rw [processItems_wf items _ lastIt hwf hlast]
  simp only [hne, Bool.false_eq_true, if_false, bind_ok_eq]

/-- C9 witness: two line items; the first violates the line-total
arithmetic (total `999.00` against `100.00 + 9.00 + 9.00 + 0.00`) while
the last is fully consistent — the run reports zero errors, because every
check only sees the last item's values. -/
theorem final_checks_use_last_item_only_witness :
    (validate_resource_and_bill_details
        [{ sl_no := some "1", resource_name := some "A", hsn_sac := some "998513",
           po_no := some "8000112642", bill_rate := some "100.00",
           ericsson_invoice_code := some "ERCS01",
           taxable_value := some "100.00", cgst := some "9.00", sgst := some "9.00",
           igst := some "0.00", total_inr := some "999.00" },
         { sl_no := some "2", resource_name := some "B", hsn_sac := some "998513",
           po_no := some "8000112643", bill_rate := some "100.00",
           ericsson_invoice_code := some "ERCS02",
           taxable_value := some "100.00", cgst := some "9.00", sgst := some "9.00",
           igst := some "0.00", total_inr := some "118.00" }]
        { total_inr := some "118.00",
          in_words := some "Rupees One Hundred Eighteen and Paisa Only." }).map errorsOf =
      Except.ok [] := by
  rw [final_checks_use_last_item_only _ _
    { sl_no := some "2", resource_name := some "B", hsn_sac := some "998513",
      po_no := some "8000112643", bill_rate := some "100.00",
      ericsson_invoice_code := some "ERCS02",
      taxable_value := some "100.00", cgst := some "9.00", sgst := some "9.00",
      igst := some "0.00", total_inr := some "118.00" }
    (by decide) (by decide)]
  rfl

end InvoiceParser
